import Mathlib

/-!
Verification development for the Obsidian note parser
(`src/parse_notes.py`): a shallow embedding of the incremental
extraction-and-aggregation pipeline, followed by theorems about the
embedded definitions.

Modelling conventions:
* Python strings are Lean `String`s; scanning is done over `List Char`.
  The regular expressions of the source use `\w`, which here is modelled
  over the ASCII range (`Char.isAlphanum` plus underscore); all inputs
  considered in this file are ASCII.
* Instants (`datetime` values) are modelled as `Nat`; the
  `isoformat`/`fromisoformat` round trip of the standard library is
  modelled away by storing the instant itself in the watermark-file
  model (see `WmContent`), keeping a distinguished unparseable state.
* Fallible Python code (an `open`/`read` that raises, a `stat` that
  raises, a frontmatter load that raises) is modelled with `Option`.
* `datetime.utcnow()` is modelled by a clock function `Nat → Nat`
  applied to a running call counter threaded through the scan.
-/

/-- Python `str.split()` / `str.strip()` whitespace characters
(ASCII subset). -/
def isPySpace (c : Char) : Bool :=
  c = ' ' || c = '\t' || c = '\n' || c = '\r' || c = '\x0b' || c = '\x0c'

/-- Word character of the source's inline-tag pattern, ASCII scope of
Python's regex class for word characters. -/
def isWordChar (c : Char) : Bool :=
  c.isAlphanum || c = '_'

/-- Python `content.split(sep)` for a one-character separator (used with
the newline and the comma in the source).  Auxiliary recursion carrying
the reversed current field. -/
def splitCharAux (sep : Char) : List Char → List Char → List String
  | cur, [] => [String.mk cur.reverse]
  | cur, c :: rest =>
    if c = sep then String.mk cur.reverse :: splitCharAux sep [] rest
    else splitCharAux sep (c :: cur) rest

/-- Python `s.split(sep)` for a one-character separator. -/
def splitChar (sep : Char) (cs : List Char) : List String :=
  splitCharAux sep [] cs

/-- Python `content.split()` (split on whitespace runs, dropping empty
fields), auxiliary recursion carrying the reversed current word. -/
def splitWsAux : List Char → List Char → List String
  | cur, [] => if cur.isEmpty then [] else [String.mk cur.reverse]
  | cur, c :: rest =>
    if isPySpace c then
      if cur.isEmpty then splitWsAux [] rest
      else String.mk cur.reverse :: splitWsAux [] rest
    else splitWsAux (c :: cur) rest

/-- Python `content.split()` with no separator argument. -/
def splitWs (cs : List Char) : List String :=
  splitWsAux [] cs

/-- Python `s.strip()` (ASCII whitespace scope). -/
def pyStrip (s : String) : String :=
  String.mk (((s.toList.dropWhile isPySpace).reverse.dropWhile isPySpace).reverse)

/-- Python `",".join(items)` (also used with other joiners in spirit;
the source only joins with a comma). -/
def joinComma : List String → String
  | [] => ""
  | [s] => s
  | s :: rest => s ++ "," ++ joinComma rest

/-- Rejoin lines with the newline character (inverse of the newline
split, used for the body part after the frontmatter block). -/
def joinLines : List String → String
  | [] => ""
  | [l] => l
  | l :: rest => l ++ "\n" ++ joinLines rest

/-- First-match lookup in a string-keyed association list (Python dict
access; the dictionaries built by the source have distinct keys). -/
def lookupStr : List (String × String) → String → Option String
  | [], _ => none
  | (k, v) :: rest, key => if k = key then some v else lookupStr rest key

/-- First-match lookup in a `Nat`-valued association list. -/
def lookupNat : List (String × Nat) → String → Option Nat
  | [], _ => none
  | (k, v) :: rest, key => if k = key then some v else lookupNat rest key

/-- Python `d.get(key, default)` on a `Nat`-valued dictionary. -/
def lookupNatD (l : List (String × Nat)) (key : String) (d : Nat) : Nat :=
  match lookupNat l key with
  | some n => n
  | none => d

/-- Python `s.startswith(p)`. -/
def strHasPrefix (s p : String) : Bool :=
  p.toList.isPrefixOf s.toList

/-- Python `part.startswith('.')` (the hidden-segment marker test of the
source's per-file loops). -/
def startsWithDot (p : String) : Bool :=
  match p.toList with
  | '.' :: _ => true
  | _ => false

/-- `re.findall` for the inline-tag pattern of the source: a hash sign
followed by one or more word characters, matches taken left to right and
non-overlapping, returning the captured word-character run.  The first
argument is recursion fuel; one unit is consumed per step while the text
shrinks by at least one character per step, so fuel equal to the text
length is always enough. -/
def findInlineTagsF : Nat → List Char → List String
  | 0, _ => []
  | _ + 1, [] => []
  | fuel + 1, c :: rest =>
    if c = '#' then
      let run := rest.takeWhile isWordChar
      if run.isEmpty then findInlineTagsF fuel rest
      else String.mk run :: findInlineTagsF fuel (rest.dropWhile isWordChar)
    else findInlineTagsF fuel rest

/-- Inline tags of a body string (the source's first `re.findall`). -/
def findInlineTags (s : String) : List String :=
  findInlineTagsF s.toList.length s.toList

/-- `re.findall` for the wikilink pattern of the source: two opening
brackets, one or more characters other than a closing bracket (captured),
then two closing brackets.  On a failed match attempt the scan resumes
one character further, as the regex engine does.  Fuel as in
`findInlineTagsF`. -/
def findWikilinksF : Nat → List Char → List String
  | 0, _ => []
  | _ + 1, [] => []
  | fuel + 1, c :: rest =>
    if c = '[' then
      match rest with
      | '[' :: rest2 =>
        let inner := rest2.takeWhile (fun ch => ch != ']')
        let rest3 := rest2.dropWhile (fun ch => ch != ']')
        match inner, rest3 with
        | _ :: _, ']' :: ']' :: tail => String.mk inner :: findWikilinksF fuel tail
        | _, _ => findWikilinksF fuel rest
      | _ => findWikilinksF fuel rest
    else findWikilinksF fuel rest

/-- Wikilinks of a body string (the source's second `re.findall`). -/
def findWikilinks (s : String) : List String :=
  findWikilinksF s.toList.length s.toList

-- Sanity examples for the scanners (concrete evaluations).
example : findInlineTags "Body #urgent and [[Other Note]]" = ["urgent"] := by decide
example : findInlineTags "#a#b ##c x" = ["a", "b", "c"] := by decide
example : findWikilinks "Linking [[A, B]] here" = ["A, B"] := by decide
example : findWikilinks "[[x]] [[y]] [[]] [[A]B]]" = ["x", "y"] := by decide
example : splitWs " hello  world ".toList = ["hello", "world"] := by decide
example : splitChar ',' "a, b".toList = ["a", " b"] := by decide
example : pyStrip "  a b " = "a b" := by decide

/-- Decimal rendering of a `Nat` (Python `str` on a non-negative int),
fuel-structured so that concrete evaluation reduces. -/
def natReprAux : Nat → Nat → List Char
  | 0, _ => []
  | fuel + 1, n =>
    if n = 0 then []
    else natReprAux fuel (n / 10) ++ [Char.ofNat (48 + n % 10)]

/-- Python `str(n)` for a non-negative integer. -/
def natRepr (n : Nat) : String :=
  if n = 0 then "0" else String.mk (natReprAux (n + 1) n)

/-- Digit-string value, for the scalar parse of the YAML model. -/
def natFromDigits (cs : List Char) : Nat :=
  cs.foldl (fun acc c => acc * 10 + (c.toNat - 48)) 0

/-- Values produced by the YAML frontmatter load, as the source's type
tests see them: strings, integers, booleans, Python `None`, and lists.
Floats and nested mappings are not produced by the mini YAML model below
and are not exercised by any claim; `null` covers the dropped
non-scalar/non-list case of the source's isinstance dispatch. -/
inductive PyVal where
  | str (s : String)
  | int (n : Int)
  | bool (b : Bool)
  | null
  | list (items : List PyVal)

/-- Python `str` on a scalar value (helper for `pyStr` on list items; a
list nested in a list is unreachable through the YAML model of this file
and rendered as the empty string). -/
def pyStrAux : PyVal → String
  | PyVal.str s => s
  | PyVal.int n => if n < 0 then "-" ++ natRepr n.natAbs else natRepr n.natAbs
  | PyVal.bool b => if b then "True" else "False"
  | PyVal.null => "None"
  | PyVal.list _ => ""

/-- Python `str(value)`.  The rendering of a nested list (unreachable
through the YAML model of this file) is approximated without the quotes
of the Python repr. -/
def pyStr : PyVal → String
  | PyVal.str s => s
  | PyVal.int n => if n < 0 then "-" ++ natRepr n.natAbs else natRepr n.natAbs
  | PyVal.bool b => if b then "True" else "False"
  | PyVal.null => "None"
  | PyVal.list items => joinComma (items.map pyStrAux)

/-- First-match lookup in a `PyVal`-valued association list. -/
def lookupPy : List (String × PyVal) → String → Option PyVal
  | [], _ => none
  | (k, v) :: rest, key => if k = key then some v else lookupPy rest key

/-- Scalar YAML value, simplified: empty is `None`, `true`/`false` are
booleans, an all-digit token is an integer, anything else a string.
Modelled from the external YAML library at the granularity the source
observes. -/
def parseScalar (s : String) : PyVal :=
  if s = "" then PyVal.null
  else if s = "true" then PyVal.bool true
  else if s = "false" then PyVal.bool false
  else if s.toList.all Char.isDigit then PyVal.int (Int.ofNat (natFromDigits s.toList))
  else PyVal.str s

/-- A YAML value on the right of a mapping line.  A flow sequence must
be closed: an unclosed opening bracket is a YAML error (`none`), which is
what the external parser raises on - the failure mode the source's
exception handler sees. -/
def parseYamlValue (s : String) : Option PyVal :=
  match s.toList with
  | '[' :: rest =>
    match rest.reverse with
    | ']' :: revMid =>
      let mid := revMid.reverse
      if pyStrip (String.mk mid) = "" then some (PyVal.list [])
      else some (PyVal.list ((splitChar ',' mid).map (fun e => parseScalar (pyStrip e))))
    | _ => none
  | _ => some (parseScalar s)

/-- Split a line of the frontmatter block at its first colon. -/
def splitKeyVal : List Char → Option (List Char × List Char)
  | [] => none
  | ':' :: rest => some ([], rest)
  | c :: rest => (splitKeyVal rest).map (fun p => (c :: p.1, p.2))

/-- One `key: value` line of the frontmatter block.  A line without a
colon or with an empty key is not a mapping line: the load fails, as the
external libraries make the source's extraction fail on a non-mapping
block. -/
def parseYamlLine (line : String) : Option (String × PyVal) :=
  match splitKeyVal line.toList with
  | none => none
  | some (k, v) =>
    let key := pyStrip (String.mk k)
    if key = "" then none
    else (parseYamlValue (pyStrip (String.mk v))).map (fun pv => (key, pv))

/-- The delimited frontmatter block as a key/value list; blank lines are
skipped; any unparseable line fails the whole load. -/
def parseYamlBlock : List String → Option (List (String × PyVal))
  | [] => some []
  | line :: rest =>
    if pyStrip line = "" then parseYamlBlock rest
    else
      match parseYamlLine line with
      | some kv => (parseYamlBlock rest).map (fun l => kv :: l)
      | none => none

/-- Find the closing delimiter line of the frontmatter block: block
lines before it, body lines after it. -/
def splitAtDelim : List String → Option (List String × List String)
  | [] => none
  | l :: rest =>
    if l = "---" then some ([], rest)
    else (splitAtDelim rest).map (fun p => (l :: p.1, p.2))

/-- Modelled from the external frontmatter library as the source calls
it: text starting with a delimiter line and holding a closing delimiter
is split into a parsed metadata block and the remaining body (stripped);
a malformed block makes the load raise (`none`); text without a leading
delimiter, or without a closing one, is all body with empty metadata.
The delimiter is modelled as the exact three-dash line. -/
def frontmatterLoad (raw : String) : Option (List (String × PyVal) × String) :=
  match splitChar '\n' raw.toList with
  | [] => some ([], raw)
  | l :: rest =>
    if l = "---" then
      match splitAtDelim rest with
      | some (block, body) =>
        (parseYamlBlock block).map (fun meta => (meta, pyStrip (joinLines body)))
      | none => some ([], raw)
    else some ([], raw)

/-- The frontmatter-field part of the metadata dictionary: scalars,
booleans and integers are stringified, lists are comma-joined, anything
else (here: `None`) is dropped silently. -/
def fmFieldPairs (meta : List (String × PyVal)) : List (String × String) :=
  meta.filterMap (fun kv =>
    match kv.2 with
    | PyVal.str _ => some ("frontmatter_" ++ kv.1, pyStr kv.2)
    | PyVal.int _ => some ("frontmatter_" ++ kv.1, pyStr kv.2)
    | PyVal.bool _ => some ("frontmatter_" ++ kv.1, pyStr kv.2)
    | PyVal.list items => some ("frontmatter_" ++ kv.1, joinComma (items.map pyStr))
    | PyVal.null => none)

/-- The `tags` entry of the metadata dictionary.  A `tags` list is
comma-joined directly (without `str` on the items), so a non-string item
makes the join raise and the whole extraction return the empty
dictionary - that failure is the `none` case. -/
def tagsPair (meta : List (String × PyVal)) : Option (List (String × String)) :=
  match lookupPy meta "tags" with
  | none => some []
  | some (PyVal.list items) =>
    if items.all (fun v => match v with | PyVal.str _ => true | _ => false)
    then some [("tags", joinComma (items.map pyStr))]
    else none
  | some v => some [("tags", pyStr v)]

/-- The metadata dictionary built from a successfully loaded post
(metadata block plus body): frontmatter fields, the `tags` entry, the
inline tags of the body, and the wikilinks of the body, the latter two
only when non-empty, as in the source. -/
def metadataFromPost (meta : List (String × PyVal)) (body : String) : List (String × String) :=
  match tagsPair meta with
  | none => []
  | some tp =>
    let inline := findInlineTags body
    let wl := findWikilinks body
    fmFieldPairs meta ++ tp
      ++ (if inline.isEmpty then [] else [("inline_tags", joinComma inline)])
      ++ (if wl.isEmpty then [] else [("wikilinks", joinComma wl)])

/-- `extract_frontmatter_metadata` of the source.  The argument is the
file content (`none` when the open/read raises).  Every exception inside
the function - the read, the frontmatter load, the tags join - is caught
and yields the empty dictionary after a logged warning. -/
def extract_frontmatter_metadata (content : Option String) : List (String × String) :=
  match content with
  | none => []
  | some raw =>
    match frontmatterLoad raw with
    | none => []
    | some (meta, body) => metadataFromPost meta body

/-- `extract_basic_stats` of the source: the statistics dictionary, or
the empty dictionary when the read raises (`content = none`).  The file
size comes from the stat call of the same function. -/
def extract_basic_stats (content : Option String) (file_size : Nat) : List (String × Nat) :=
  match content with
  | none => []
  | some c =>
    [("word_count", (splitWs c.toList).length),
     ("line_count", (splitChar '\n' c.toList).length),
     ("file_size", file_size),
     ("char_count", c.toList.length)]

/-- `get_file_timestamps` of the source: the creation/modification
instants from the stat call, or the empty dictionary when the stat
raises. -/
def get_file_timestamps (stat : Option (Nat × Nat)) : List (String × Nat) :=
  match stat with
  | some (c, m) => [("created_at", c), ("modified_at", m)]
  | none => []

/-- `create_loki_labels` of the source: fixed identifying labels, the
`tags` entry when present, and every `frontmatter_`-prefixed entry whose
value is shorter than one hundred characters.  Of the merged metadata
dictionary only the entries built by `extract_frontmatter_metadata` can
match these keys, so the function is applied to that part. -/
def create_loki_labels (note_name vault_name : String) (metadata : List (String × String)) : List (String × String) :=
  [("note_name", note_name), ("vault", vault_name), ("job", "obsidian-parser")]
  ++ (match lookupStr metadata "tags" with
      | some t => [("tags", t)]
      | none => [])
  ++ metadata.filter (fun kv => strHasPrefix kv.1 "frontmatter_" && decide (kv.2.toList.length < 100))

-- Sanity examples for the extraction model.
example :
    extract_frontmatter_metadata (some "---\ntags: [a, b]\npriority: 3\n---\nBody #urgent and [[Other Note]]\n")
      = [("frontmatter_tags", "a,b"), ("frontmatter_priority", "3"), ("tags", "a,b"),
         ("inline_tags", "urgent"), ("wikilinks", "Other Note")] := by decide
example : extract_frontmatter_metadata (some "---\ntags: [a\n---\n#urgent body") = [] := by decide
example : extract_frontmatter_metadata (some "plain #x body") = [("inline_tags", "x")] := by decide
example : extract_basic_stats (some "a b\nc") 5
    = [("word_count", 3), ("line_count", 2), ("file_size", 5), ("char_count", 5)] := by decide

/-- Per-vault slot of the aggregate counters (one value of the
defaultdict `vault_counts` in the source's global metrics state). -/
structure VaultCounts where
  notes : Finset String
  tags : Finset String
  words : Nat
  wikilinks : Nat

/-- The default slot the defaultdict creates on first access. -/
def initVaultCounts : VaultCounts :=
  { notes := ∅, tags := ∅, words := 0, wikilinks := 0 }

/-- The source's global `metrics_data` state: process-wide unique-note
and unique-tag sets, the process-wide word total, and the per-vault
defaultdict (modelled as a total function with the defaultdict's
default).  The derived Prometheus gauges are set from these values and
the per-note counters are increment-only views; the claims speak about
this state. -/
structure MetricsData where
  unique_notes : Finset String
  unique_tags : Finset String
  total_words : Nat
  vault_counts : String → VaultCounts

/-- The metrics state at process start. -/
def initMetrics : MetricsData :=
  { unique_notes := ∅, unique_tags := ∅, total_words := 0,
    vault_counts := fun _ => initVaultCounts }

/-- `update_metrics` of the source: add the note name to the unique-note
sets, each tag to the unique-tag sets, the word count to the word
totals, and the wikilink count to the vault's wikilink total. -/
def update_metrics (note_name vault : String) (word_count : Nat)
    (tags : List String) (wikilinks_count : Nat) (m : MetricsData) : MetricsData :=
  let vc := m.vault_counts vault
  let vc' : VaultCounts :=
    { notes := insert note_name vc.notes
      tags := tags.foldl (fun s t => insert t s) vc.tags
      words := vc.words + word_count
      wikilinks := vc.wikilinks + wikilinks_count }
  { unique_notes := insert note_name m.unique_notes
    unique_tags := tags.foldl (fun s t => insert t s) m.unique_tags
    total_words := m.total_words + word_count
    vault_counts := fun v => if v = vault then vc' else m.vault_counts v }

/-- Content of the watermark file beside the output destination.  The
text layer is modelled by its parse result: `absent` is a missing file,
`empty` a truncated (or otherwise unparseable) file the instant parser
rejects, `value t` a file holding the serialized instant `t`. -/
inductive WmContent where
  | absent
  | empty
  | value (t : Nat)

/-- The watermark read of the scan's start (source: existence check,
read, instant parse; a missing file or a failed parse both yield no
watermark after a logged message). -/
def readWatermark : WmContent → Option Nat
  | WmContent.absent => none
  | WmContent.empty => none
  | WmContent.value t => some t

/-- The watermark write at the end of a scan, as the sequence of
file-system contents its primitive steps leave behind: the source opens
the file in truncating write mode (content becomes empty) and then
writes the new serialized instant. -/
def writeWatermarkStates (t : Nat) : List WmContent :=
  [WmContent.empty, WmContent.value t]

/-- One enumerated file of a scan, carrying its path components, its
stem (the note name), its root-relative path, the content an attempted
read yields (`none` when the read raises), the stat size, and the stat
instants (`none` when the stat raises). -/
structure FileInput where
  parts : List String
  stem : String
  relPath : String
  content : Option String
  file_size : Nat
  stat : Option (Nat × Nat)

/-- The hidden-segment test of both per-file loops: some path component
begins with a dot. -/
def isHidden (f : FileInput) : Bool :=
  f.parts.any startsWithDot

/-- The watermark gate of the source's loop: skip when a watermark
exists and the file's modification instant (when the timestamps
dictionary holds one) is not strictly after it.  The reparse of the
serialized modification instant always succeeds on the instants the
model produces. -/
def watermarkSkips (last_run_time : Option Nat) (timestamps : List (String × Nat)) : Bool :=
  match last_run_time, lookupNat timestamps "modified_at" with
  | some t, some mt => decide (mt ≤ t)
  | _, _ => false

/-- The word count, tag list and wikilink count the source derives from
the merged metadata before calling `update_metrics`: split the
comma-joined string, strip each piece, keep the non-empty ones. -/
def splitCommaStrip (s : String) : List String :=
  ((splitChar ',' s.toList).map pyStrip).filter (fun t => t != "")

/-- The tag list passed to `update_metrics`: the `tags` entry and then
the `inline_tags` entry of the metadata, each comma-split and
stripped. -/
def tagsOfMeta (meta : List (String × String)) : List String :=
  (match lookupStr meta "tags" with
   | some s => splitCommaStrip s
   | none => [])
  ++ (match lookupStr meta "inline_tags" with
      | some s => splitCommaStrip s
      | none => [])

/-- The wikilink count passed to `update_metrics`: the length of the
comma-split of the serialized `wikilinks` entry. -/
def wikilinksCountOfMeta (meta : List (String × String)) : Nat :=
  match lookupStr meta "wikilinks" with
  | some s => (splitCommaStrip s).length
  | none => 0

/-- The whole metrics fold one processed file causes, as both pipelines
perform it: extract, derive word count (default zero), tags and wikilink
count, and call `update_metrics`. -/
def metricsFold (vault_name : String) (m : MetricsData) (f : FileInput) : MetricsData :=
  let basic := extract_basic_stats f.content f.file_size
  let meta := extract_frontmatter_metadata f.content
  update_metrics f.stem vault_name (lookupNatD basic "word_count" 0)
    (tagsOfMeta meta) (wikilinksCountOfMeta meta) m

/-- Externally visible effects of a run, for frame reasoning: a file
read (the content opens of the extraction step), the consult of the
watermark file, the append to the output destination, and the watermark
write.  Log-file rotation is not modelled (no claim concerns it). -/
inductive Effect where
  | readFile (parts : List String)
  | readWatermarkFile
  | appendOutput (numEntries : Nat)
  | writeWatermark (t : Nat)
deriving DecidableEq

/-- One durable log record of the full pipeline: capture instant,
labels, and the parts of the merged metadata dictionary that the
serialized line holds. -/
structure Entry where
  timestamp : Nat
  labels : List (String × String)
  basic : List (String × Nat)
  meta : List (String × String)
  timestamps : List (String × Nat)
  file_path : String
  note_name : String
deriving DecidableEq

/-- State threaded through the full pipeline's per-file loop: the
entries collected so far, the metrics state, the number of clock
(`utcnow`) calls made so far, and the effect trace. -/
structure ScanState where
  entries : List Entry
  metrics : MetricsData
  clockCalls : Nat
  effects : List Effect

/-- The emit branch of the full pipeline's loop body: build the entry
(consuming one clock call for its capture instant), append it, and fold
the metrics. -/
def emitFile (vault_name : String) (clock : Nat → Nat) (st : ScanState) (f : FileInput) : ScanState :=
  let basic := extract_basic_stats f.content f.file_size
  let meta := extract_frontmatter_metadata f.content
  let tss := get_file_timestamps f.stat
  let entry : Entry :=
    { timestamp := clock st.clockCalls
      labels := create_loki_labels f.stem vault_name meta
      basic := basic
      meta := meta
      timestamps := tss
      file_path := f.relPath
      note_name := f.stem }
  { entries := st.entries ++ [entry]
    metrics := metricsFold vault_name st.metrics f
    clockCalls := st.clockCalls + 1
    effects := st.effects }

/-- The loop body of `parse_obsidian_vault` for one enumerated file:
skip hidden paths before anything else; otherwise read and extract
(recorded as the read effect), apply the watermark gate, and on pass
emit and fold.  The source computes the extraction results before the
gate; the functions being pure, the emit branch recomputes them
unchanged here. -/
def processFile (vault_name : String) (last_run_time : Option Nat) (clock : Nat → Nat)
    (st : ScanState) (f : FileInput) : ScanState :=
  if isHidden f then st
  else
    let stR : ScanState := { st with effects := st.effects ++ [Effect.readFile f.parts] }
    if watermarkSkips last_run_time (get_file_timestamps f.stat) then stR
    else emitFile vault_name clock stR f

/-- Result of a full-pipeline run: the appended entries, the metrics
state, the instant persisted as the new watermark, and the effect
trace, together with the step states of the watermark write. -/
structure ScanResult where
  entries : List Entry
  metrics : MetricsData
  watermark : Nat
  effects : List Effect
  wmWriteTrace : List WmContent

/-- `parse_obsidian_vault` of the source (the vault-existence guard is a
precondition; the destination-write failure path is not modelled): read
the watermark, loop over the enumerated files, capture the current
instant after the loop, append the entries when any exist, and write
that instant as the new watermark. -/
def parse_obsidian_vault (vault_name : String) (wmFile : WmContent)
    (files : List FileInput) (clock : Nat → Nat) (m0 : MetricsData) : ScanResult :=
  let last_run_time := readWatermark wmFile
  let st0 : ScanState :=
    { entries := [], metrics := m0, clockCalls := 0,
      effects := match wmFile with
        | WmContent.absent => []
        | _ => [Effect.readWatermarkFile] }
  let st := files.foldl (processFile vault_name last_run_time clock) st0
  let current_run_time := clock st.clockCalls
  { entries := st.entries
    metrics := st.metrics
    watermark := current_run_time
    effects := st.effects
      ++ (if st.entries.isEmpty then [] else [Effect.appendOutput st.entries.length])
      ++ [Effect.writeWatermark current_run_time]
    wmWriteTrace := writeWatermarkStates current_run_time }

/-- State threaded through the metrics-only pipeline's loop: the metrics
and the effect trace (this variant emits no entries and consumes no
clock). -/
structure MetricsOnlyState where
  metrics : MetricsData
  effects : List Effect

/-- The loop body of `parse_obsidian_vault_metrics_only` for one file:
skip hidden paths, otherwise read, extract and fold. -/
def processFileMetricsOnly (vault_name : String) (st : MetricsOnlyState) (f : FileInput) : MetricsOnlyState :=
  if isHidden f then st
  else
    { metrics := metricsFold vault_name st.metrics f
      effects := st.effects ++ [Effect.readFile f.parts] }

/-- `parse_obsidian_vault_metrics_only` of the source (the
vault-existence guard is a precondition): fold every enumerated
non-hidden file into the metrics; no watermark is read or written and no
output is appended. -/
def parse_obsidian_vault_metrics_only (vault_name : String)
    (files : List FileInput) (m0 : MetricsData) : MetricsOnlyState :=
  files.foldl (processFileMetricsOnly vault_name) { metrics := m0, effects := [] }

/-- A well-formed sample file (used by witnesses): readable content with
one inline tag and one wikilink, stat instants created 0 / modified 3. -/
def fGood : FileInput :=
  { parts := ["v", "a.md"], stem := "a", relPath := "a.md",
    content := some "hello world #tag1 [[L]]", file_size := 23, stat := some (0, 3) }

/-- A sample file whose read raises (used by witnesses and
counterexamples): content `none`, stat succeeds. -/
def fBadRead : FileInput :=
  { parts := ["v", "bad.md"], stem := "bad", relPath := "bad.md",
    content := none, file_size := 0, stat := some (0, 10) }

/-- A sample file under a hidden directory (used by witnesses). -/
def fHidden : FileInput :=
  { parts := ["v", ".trash", "note.md"], stem := "note", relPath := ".trash/note.md",
    content := some "secret #h", file_size := 9, stat := some (0, 7) }

/-- The empty scan-loop state over fresh metrics (used by witnesses). -/
def sampleState : ScanState :=
  { entries := [], metrics := initMetrics, clockCalls := 0, effects := [] }

-- Sanity examples for the orchestrators (concrete evaluations).
example :
    (parse_obsidian_vault "v" WmContent.absent [fGood] (fun n => n) initMetrics).watermark = 1 := by
  decide
example :
    (parse_obsidian_vault "v" (WmContent.value 5) [fGood] (fun n => n) initMetrics).entries = [] := by
  decide
example :
    (parse_obsidian_vault "v" WmContent.absent [fGood] (fun n => n) initMetrics).entries.length = 1 := by
  decide
example :
    (parse_obsidian_vault_metrics_only "v" [fGood, fHidden] initMetrics).effects
      = [Effect.readFile ["v", "a.md"]] := by
  decide
example :
    (processFile "v" none (fun n => n) sampleState fBadRead).entries.length = 1 := by
  decide
example :
    "bad" ∈ (processFile "v" none (fun n => n) sampleState fBadRead).metrics.unique_notes := by
  decide

/-- Argument bundle of one `update_metrics` call. -/
structure FoldArgs where
  note : String
  vault : String
  words : Nat
  tags : List String
  wikilinks : Nat

/-- Apply one fold to the metrics state. -/
def applyFold (m : MetricsData) (a : FoldArgs) : MetricsData :=
  update_metrics a.note a.vault a.words a.tags a.wikilinks m

/-- Apply a sequence of folds to the metrics state. -/
def applyFolds (m : MetricsData) (l : List FoldArgs) : MetricsData :=
  l.foldl applyFold m

/-- Componentwise growth order on the metrics state: every additive
total is no smaller, every uniqueness set a superset (hence its size no
smaller), process-wide and for every vault. -/
def MetricsLE (m m' : MetricsData) : Prop :=
  m.total_words ≤ m'.total_words ∧
  m.unique_notes ⊆ m'.unique_notes ∧
  m.unique_tags ⊆ m'.unique_tags ∧
  m.unique_notes.card ≤ m'.unique_notes.card ∧
  m.unique_tags.card ≤ m'.unique_tags.card ∧
  ∀ v, (m.vault_counts v).words ≤ (m'.vault_counts v).words ∧
       (m.vault_counts v).wikilinks ≤ (m'.vault_counts v).wikilinks ∧
       (m.vault_counts v).notes ⊆ (m'.vault_counts v).notes ∧
       (m.vault_counts v).tags ⊆ (m'.vault_counts v).tags ∧
       (m.vault_counts v).notes.card ≤ (m'.vault_counts v).notes.card ∧
       (m.vault_counts v).tags.card ≤ (m'.vault_counts v).tags.card

theorem metricsLE_refl (m : MetricsData) : MetricsLE m m := by
  refine ⟨le_refl _, Finset.Subset.refl _, Finset.Subset.refl _, le_refl _, le_refl _, ?_⟩
  intro v
  exact ⟨le_refl _, le_refl _, Finset.Subset.refl _, Finset.Subset.refl _, le_refl _, le_refl _⟩

theorem metricsLE_trans {a b c : MetricsData} (h1 : MetricsLE a b) (h2 : MetricsLE b c) :
    MetricsLE a c := by
  obtain ⟨w1, n1, t1, cn1, ct1, v1⟩ := h1
  obtain ⟨w2, n2, t2, cn2, ct2, v2⟩ := h2
  refine ⟨le_trans w1 w2, Finset.Subset.trans n1 n2, Finset.Subset.trans t1 t2,
    le_trans cn1 cn2, le_trans ct1 ct2, ?_⟩
  intro v
  obtain ⟨a1, b1, c1, d1, e1, f1⟩ := v1 v
  obtain ⟨a2, b2, c2, d2, e2, f2⟩ := v2 v
  exact ⟨le_trans a1 a2, le_trans b1 b2, Finset.Subset.trans c1 c2,
    Finset.Subset.trans d1 d2, le_trans e1 e2, le_trans f1 f2⟩

/-- A start set is contained in the left fold of inserts over it (the
tag-insertion loop of `update_metrics`). -/
theorem subset_foldl_insert (l : List String) (s : Finset String) :
    s ⊆ l.foldl (fun acc t => insert t acc) s := by
  induction l generalizing s with
  | nil => exact Finset.Subset.refl s
  | cons t rest ih =>
      exact Finset.Subset.trans (Finset.subset_insert t s) (ih (insert t s))

/-- One `update_metrics` call only grows the metrics state. -/
theorem update_metrics_le (note vault : String) (wc : Nat) (tags : List String)
    (wl : Nat) (m : MetricsData) :
    MetricsLE m (update_metrics note vault wc tags wl m) := by
  refine ⟨Nat.le_add_right _ _,
    Finset.subset_insert _ _,
    subset_foldl_insert tags m.unique_tags,
    Finset.card_le_card (Finset.subset_insert _ _),
    Finset.card_le_card (subset_foldl_insert tags m.unique_tags), ?_⟩
  intro v
  by_cases h : v = vault
  · subst h
    simp only [update_metrics, if_pos rfl]
    exact ⟨Nat.le_add_right _ _, Nat.le_add_right _ _,
      Finset.subset_insert _ _, subset_foldl_insert _ _,
      Finset.card_le_card (Finset.subset_insert _ _),
      Finset.card_le_card (subset_foldl_insert _ _)⟩
  · simp only [update_metrics, if_neg h]
    exact ⟨le_refl _, le_refl _, Finset.Subset.refl _, Finset.Subset.refl _,
      le_refl _, le_refl _⟩

/-- Claim C6: over any sequence of folds into the aggregate counters
within one process lifetime, every running additive total (the
process-wide word total, and each vault's word and wikilink totals) is
non-decreasing, and every uniqueness set (process-wide and per-vault
unique note names and unique tags) only gains elements, so its size is
non-decreasing; no fold removes an element or decreases a counter. -/
theorem C6_counters_monotone (l : List FoldArgs) (m : MetricsData) :
    MetricsLE m (applyFolds m l) := by
  induction l generalizing m with
  | nil => exact metricsLE_refl m
  | cons a rest ih =>
      exact metricsLE_trans
        (update_metrics_le a.note a.vault a.words a.tags a.wikilinks m)
        (ih (applyFold m a))

/-- Claim C1: for a file enumerated by a scan run of the full pipeline
(hidden paths are excluded from the enumeration), when the persisted
watermark exists (readable and parseable) and the file's modification
instant is not strictly after it, the file is skipped: no entry is
appended and the counters are not folded.  When no watermark exists
(missing file, or a truncated/unparseable one - both read as `none`),
the document is processed unconditionally: exactly one entry is appended
and the counters are folded for it. -/
theorem C1_watermark_gate (vault : String) (wm : WmContent) (clock : Nat → Nat)
    (st : ScanState) (f : FileInput) (hh : isHidden f = false) :
    (∀ t ct mt, readWatermark wm = some t → f.stat = some (ct, mt) → mt ≤ t →
      (processFile vault (readWatermark wm) clock st f).entries = st.entries ∧
      (processFile vault (readWatermark wm) clock st f).metrics = st.metrics) ∧
    (readWatermark wm = none →
      (processFile vault (readWatermark wm) clock st f).entries.length = st.entries.length + 1 ∧
      (processFile vault (readWatermark wm) clock st f).metrics = metricsFold vault st.metrics f) := by
  constructor
  · intro t ct mt hr hs hle
    have hskip : watermarkSkips (readWatermark wm) (get_file_timestamps f.stat) = true := by
      rw [hr, hs]
      simp [watermarkSkips, get_file_timestamps, lookupNat, hle]
    simp [processFile, hh, hskip]
  · intro hr
    have hskip : watermarkSkips (readWatermark wm) (get_file_timestamps f.stat) = false := by
      rw [hr]
      rfl
    simp [processFile, hh, hskip, emitFile]

/-- Witness for C1 at concrete inputs: with watermark instant five and a
file modified at three the entry list is unchanged; with no watermark
the same file adds exactly one entry. -/
theorem C1_watermark_gate_witness :
    ((processFile "v" (readWatermark (WmContent.value 5)) (fun n => n) sampleState fGood).entries
       = sampleState.entries) ∧
    ((processFile "v" (readWatermark WmContent.absent) (fun n => n) sampleState fGood).entries.length
       = sampleState.entries.length + 1) := by
  constructor
  · exact ((C1_watermark_gate "v" (WmContent.value 5) (fun n => n) sampleState fGood
      (by decide)).1 5 0 3 rfl rfl (by decide)).1
  · exact ((C1_watermark_gate "v" WmContent.absent (fun n => n) sampleState fGood
      (by decide)).2 rfl).1

/-- Claim C2 counterexample: a file whose read raises (content `none`)
under no watermark is NOT skipped - the run appends an entry for it and
folds the counters (its note name enters the unique-note set), so the
claim that it contributes nothing to the durable output and to the
aggregate counters is false on the code. -/
theorem C2_counterexample :
    ¬ ((processFile "v" none (fun n => n) sampleState fBadRead).entries = sampleState.entries ∧
       (processFile "v" none (fun n => n) sampleState fBadRead).metrics.unique_notes
         = sampleState.metrics.unique_notes) := by
  decide

/-- Claim C2 amended: when a file's raw read fails, the scan does not
abort and the failure is logged inside the extractors, but the document
is still fully processed rather than skipped: unless the watermark gate
skips it, exactly one durable log entry is appended for it (with empty
extracted metadata) and the aggregate counters are folded for it with
word count zero, no tags and no wikilinks - its note name still enters
the unique-note sets. -/
theorem C2_read_failure_still_processed (vault : String) (last : Option Nat)
    (clock : Nat → Nat) (st : ScanState) (f : FileInput)
    (hh : isHidden f = false) (hc : f.content = none)
    (hw : watermarkSkips last (get_file_timestamps f.stat) = false) :
    (processFile vault last clock st f).entries.length = st.entries.length + 1 ∧
    (processFile vault last clock st f).metrics
      = update_metrics f.stem vault 0 [] 0 st.metrics := by
  simp [processFile, hh, hw, emitFile, metricsFold, hc, extract_basic_stats,
    extract_frontmatter_metadata, lookupNatD, lookupNat, tagsOfMeta, lookupStr,
    wikilinksCountOfMeta]

/-- Witness for the amended C2 at a concrete read-failing file. -/
theorem C2_read_failure_still_processed_witness :
    (processFile "v" none (fun n => n) sampleState fBadRead).entries.length
      = sampleState.entries.length + 1 ∧
    (processFile "v" none (fun n => n) sampleState fBadRead).metrics
      = update_metrics "bad" "v" 0 [] 0 sampleState.metrics :=
  C2_read_failure_still_processed "v" none (fun n => n) sampleState fBadRead
    (by decide) rfl (by decide)

/-- Claim C8: a file whose path contains a hidden segment (a component
beginning with a dot) is skipped before anything happens, in both
pipelines: the loop state is returned unchanged - no read effect is
recorded, no entry is appended, no counter is folded. -/
theorem C8_hidden_excluded (vault : String) (last : Option Nat) (clock : Nat → Nat)
    (st : ScanState) (stM : MetricsOnlyState) (f : FileInput) (hh : isHidden f = true) :
    processFile vault last clock st f = st ∧
    processFileMetricsOnly vault stM f = stM := by
  constructor
  · simp [processFile, hh]
  · simp [processFileMetricsOnly, hh]

/-- Witness for C8 at the concrete file under the hidden trash
directory. -/
theorem C8_hidden_excluded_witness :
    processFile "v" none (fun n => n) sampleState fHidden = sampleState ∧
    processFileMetricsOnly "v" { metrics := initMetrics, effects := [] } fHidden
      = { metrics := initMetrics, effects := [] } :=
  C8_hidden_excluded "v" none (fun n => n) sampleState
    { metrics := initMetrics, effects := [] } fHidden (by decide)

/-- The metrics-only loop, from any starting state: the metrics are the
fold of every non-hidden file, and the effects appended are exactly one
read per non-hidden file. -/
theorem metricsOnly_run_spec (vault : String) (files : List FileInput) (st : MetricsOnlyState) :
    (files.foldl (processFileMetricsOnly vault) st).metrics
      = (files.filter (fun f => !(isHidden f))).foldl (metricsFold vault) st.metrics ∧
    (files.foldl (processFileMetricsOnly vault) st).effects
      = st.effects ++ (files.filter (fun f => !(isHidden f))).map (fun f => Effect.readFile f.parts) := by
  induction files generalizing st with
  | nil => simp
  | cons f rest ih =>
      by_cases hid : isHidden f
      · have hstep : processFileMetricsOnly vault st f = st := by
          simp [processFileMetricsOnly, hid]
        simp only [List.foldl_cons, List.filter_cons, hid, hstep]
        simpa using ih st
      · have hid' : isHidden f = false := by simpa using hid
        have hstep : processFileMetricsOnly vault st f
            = { metrics := metricsFold vault st.metrics f
                effects := st.effects ++ [Effect.readFile f.parts] } := by
          simp [processFileMetricsOnly, hid']
        simp only [List.foldl_cons, List.filter_cons, hid', hstep]
        obtain ⟨h1, h2⟩ := ih { metrics := metricsFold vault st.metrics f
                                effects := st.effects ++ [Effect.readFile f.parts] }
        refine ⟨by simpa using h1, ?_⟩
        rw [h2]
        simp

/-- Claim C9: the metrics-only pipeline run consults no watermark and
writes nothing (its effect trace holds only file reads - no watermark
read, no watermark write, no output append), and it processes every
non-hidden enumerated document on every invocation: its only state
change is the in-memory fold of each such document into the aggregate
counters. -/
theorem C9_metrics_only_frame (vault : String) (files : List FileInput) (m0 : MetricsData) :
    (∀ e ∈ (parse_obsidian_vault_metrics_only vault files m0).effects, ∃ p, e = Effect.readFile p) ∧
    (parse_obsidian_vault_metrics_only vault files m0).metrics
      = (files.filter (fun f => !(isHidden f))).foldl (metricsFold vault) m0 := by
  obtain ⟨h1, h2⟩ := metricsOnly_run_spec vault files { metrics := m0, effects := [] }
  constructor
  · intro e he
    rw [parse_obsidian_vault_metrics_only, h2] at he
    simp only [List.nil_append, List.mem_map] at he
    obtain ⟨f, _, hf⟩ := he
    exact ⟨f.parts, hf.symm⟩
  · exact h1

/-- Witness for C9 at a concrete run over one visible and one hidden
file. -/
theorem C9_metrics_only_frame_witness :
    (∃ p, Effect.readFile ["v", "a.md"] = Effect.readFile p) ∧
    (parse_obsidian_vault_metrics_only "v" [fGood, fHidden] initMetrics).metrics
      = ([fGood, fHidden].filter (fun f => !(isHidden f))).foldl (metricsFold "v") initMetrics := by
  constructor
  · exact (C9_metrics_only_frame "v" [fGood] initMetrics).1
      (Effect.readFile ["v", "a.md"]) (by decide)
  · exact (C9_metrics_only_frame "v" [fGood, fHidden] initMetrics).2

/-- Claim C3 counterexample: the instant persisted as the watermark is
not the scan's start-of-pass capture.  With the identity clock and one
emitted entry, the first clock reading of the run (a pre-loop capture
would be that reading) is zero, while the persisted watermark is one. -/
theorem C3_counterexample :
    ¬ ((parse_obsidian_vault "v" WmContent.absent [fGood] (fun n => n) initMetrics).watermark
        = (fun n : Nat => n) 0) := by
  decide

/-- One loop step keeps the clock-call count equal to the entry count. -/
theorem processFile_clock_entries (vault : String) (last : Option Nat) (clock : Nat → Nat)
    (st : ScanState) (f : FileInput) (h : st.clockCalls = st.entries.length) :
    (processFile vault last clock st f).clockCalls
      = (processFile vault last clock st f).entries.length := by
  by_cases hid : isHidden f
  · simp [processFile, hid, h]
  · have hid' : isHidden f = false := by simpa using hid
    by_cases hw : watermarkSkips last (get_file_timestamps f.stat) = true
    · simp [processFile, hid', hw, h]
    · have hw' : watermarkSkips last (get_file_timestamps f.stat) = false := by
        simpa using hw
      simp [processFile, hid', hw', emitFile, h]

/-- Over the whole loop the clock-call count equals the entry count
(the source consumes one capture instant per emitted entry). -/
theorem scan_clock_entries (vault : String) (last : Option Nat) (clock : Nat → Nat)
    (files : List FileInput) (st : ScanState) (h : st.clockCalls = st.entries.length) :
    (files.foldl (processFile vault last clock) st).clockCalls
      = (files.foldl (processFile vault last clock) st).entries.length := by
  induction files generalizing st with
  | nil => simpa using h
  | cons f rest ih => exact ih _ (processFile_clock_entries vault last clock st f h)

/-- Claim C3 amended: the watermark persisted at the end of a run equals
a capture time taken once AFTER the per-file loop completes and before
the write phase - the run's next clock reading after the one consumed by
each emitted entry - not the start-of-pass time and not a per-file
time. -/
theorem C3_watermark_capture_after_loop (vault : String) (wm : WmContent)
    (files : List FileInput) (clock : Nat → Nat) (m0 : MetricsData) :
    (parse_obsidian_vault vault wm files clock m0).watermark
      = clock (parse_obsidian_vault vault wm files clock m0).entries.length := by
  simp only [parse_obsidian_vault]
  exact congrArg clock (scan_clock_entries vault (readWatermark wm) clock files _ rfl)

/-- Claim C4 counterexample: a file whose frontmatter block is malformed
(an unclosed flow sequence) and whose body holds the inline tag `urgent`
yields an extraction with NO inline-tag entry at all - the whole
extraction returns the empty dictionary, so body-derived data is not
extracted for such a file. -/
theorem C4_counterexample :
    findInlineTags "#urgent body" = ["urgent"] ∧
    ¬ (lookupStr (extract_frontmatter_metadata (some "---\ntags: [a\n---\n#urgent body"))
        "inline_tags" = some "urgent") := by
  decide

/-- Claim C4 amended: when the leading structured block is ABSENT (the
content does not start with the delimiter line), the whole file is
treated as body with an empty structured-field set and body-derived data
(inline tags, wikilinks) is still extracted; but when the block is
MALFORMED (the frontmatter load raises), the extractor degrades to the
entirely empty metadata dictionary after a logged warning - no inline
tags or links are extracted for that file - and only the document's
remaining processing continues. -/
theorem C4_frontmatter_absent_or_malformed (raw : String) :
    (frontmatterLoad raw = none → extract_frontmatter_metadata (some raw) = []) ∧
    ((splitChar '\n' raw.toList).head? ≠ some "---" →
      extract_frontmatter_metadata (some raw) = metadataFromPost [] raw) := by
  constructor
  · intro h
    simp [extract_frontmatter_metadata, h]
  · intro h
    have hload : frontmatterLoad raw = some ([], raw) := by
      unfold frontmatterLoad
      cases hsp : splitChar '\n' raw.toList with
      | nil => rfl
      | cons l rest =>
          have hl : ¬ (l = "---") := by
            intro hc
            apply h
            rw [hsp, hc]
            rfl
          simp [hl]
    simp [extract_frontmatter_metadata, hload]

/-- Witness for the amended C4: the malformed sample extracts to the
empty dictionary; a delimiter-free sample extracts exactly the
body-derived fields of its whole content. -/
theorem C4_frontmatter_absent_or_malformed_witness :
    extract_frontmatter_metadata (some "---\ntags: [a\n---\n#urgent body") = [] ∧
    extract_frontmatter_metadata (some "plain #x body") = metadataFromPost [] "plain #x body" := by
  constructor
  · exact (C4_frontmatter_absent_or_malformed "---\ntags: [a\n---\n#urgent body").1 rfl
  · exact (C4_frontmatter_absent_or_malformed "plain #x body").2 (by decide)

/-- Claim C5 counterexample: the watermark write is not
crash-atomic.  With prior persisted watermark five and new value seven,
not every intermediate file state of the write still reads as the prior
value: the truncating open leaves an empty, unreadable watermark file. -/
theorem C5_counterexample :
    ¬ (∀ s ∈ writeWatermarkStates 7, readWatermark s = readWatermark (WmContent.value 5)) := by
  decide

/-- Claim C5 amended: the watermark write is overwrite-in-place with
truncation (open in write mode, then write): a crash between scan
completion and write completion can leave the empty intermediate file
state, which does not read back as the prior value - it reads as no
watermark at all, so the next run's gate skips nothing and every
document is reprocessed (conservative data loss, not corruption); only
after the write completes does the file read as the new instant. -/
theorem C5_watermark_write_truncates (t : Nat) (f : FileInput) :
    writeWatermarkStates t = [WmContent.empty, WmContent.value t] ∧
    readWatermark WmContent.empty = none ∧
    readWatermark (WmContent.value t) = some t ∧
    watermarkSkips (readWatermark WmContent.empty) (get_file_timestamps f.stat) = false :=
  ⟨rfl, rfl, rfl, rfl⟩

/-- The document of claim C7: frontmatter with a two-element tags list
and an integer priority field, body with one inline tag and one
wikilink. -/
def c7content : String :=
  "---\ntags: [a, b]\npriority: 3\n---\nBody #urgent and [[Other Note]]\n"

/-- Claim C7: for the document of `c7content` the extraction record's
tag set (as the pipelines derive it before folding) contains `a`, `b`
and `urgent`, and its links hold `Other Note`. -/
theorem C7_round_trip :
    "a" ∈ tagsOfMeta (extract_frontmatter_metadata (some c7content)) ∧
    "b" ∈ tagsOfMeta (extract_frontmatter_metadata (some c7content)) ∧
    "urgent" ∈ tagsOfMeta (extract_frontmatter_metadata (some c7content)) ∧
    lookupStr (extract_frontmatter_metadata (some c7content)) "wikilinks" = some "Other Note" := by
  decide

/-- The document of claim C10: a single wikilink whose bracketed text
holds a comma. -/
def c10content : String := "Linking [[A, B]] here"

/-- Claim C10: the body of `c10content` holds exactly one wikilink, yet
the wikilink count the pipelines fold into the counters for it is two
(greater than one), because the count is taken by comma-splitting the
serialized wikilinks string rather than by counting the matches. -/
theorem C10_comma_wikilink_overcount :
    (findWikilinks c10content).length = 1 ∧
    wikilinksCountOfMeta (extract_frontmatter_metadata (some c10content)) = 2 ∧
    1 < wikilinksCountOfMeta (extract_frontmatter_metadata (some c10content)) ∧
    ((metricsFold "v" initMetrics
        { parts := ["v", "c.md"], stem := "c", relPath := "c.md",
          content := some c10content, file_size := 21, stat := some (0, 1) }).vault_counts "v").wikilinks
      = 2 := by
  decide
